import Mathlib

/-!
Verification development for the BillEase billing backend.

The definitions below are a shallow embedding of the Python/Django source:
`account/models.py` (Plan, User and their methods), `bill/serializers.py`
(BillSerializer.validate_items / create / update), `bill/views.py`
(create_bill, including the stock-decrement loop) and `dashboard/views.py`
(the permission checks and the seven dashboard/report endpoints).

Currency and quantity arithmetic is modelled over `ℚ`.  Python `int()` on a
non-negative value truncates (`pyTrunc`), and Python `round(x, 2)` rounds
half-to-even (`round2`).  Timestamps are modelled as integers (`ℤ`), with
Django date truncation passed in as an explicit function where the source
uses `TruncMonth`; `TruncDate` is the identity because model timestamps are
taken at day resolution.
-/

/-- Python `int(q)` on a rational: truncation toward zero. -/
def pyTrunc (q : ℚ) : ℤ := if q < 0 then -(⌊-q⌋) else ⌊q⌋

/-- Python `round(q)` to the nearest integer, ties to even (banker's rounding). -/
def roundHalfEven (q : ℚ) : ℤ :=
  let f := ⌊q⌋
  let r := q - (f : ℚ)
  if r < 1/2 then f
  else if 1/2 < r then f + 1
  else if f % 2 = 0 then f else f + 1

/-- Python `round(q, 2)`: round to two decimal places, ties to even. -/
def round2 (q : ℚ) : ℚ := ((roundHalfEven (q * 100) : ℤ) : ℚ) / 100

/-- A JSON scalar as it can appear in an item field of the request payload.
`pnum` covers Python ints/floats and strings that parse as numbers; `pstr`
is a string that does not parse as a number. -/
inductive PyVal where
  | pnum (q : ℚ)
  | pstr (s : String)
  | pbool (b : Bool)
  | pnull
  deriving DecidableEq

/-- Python `float(v)` on a JSON scalar: numbers convert, booleans convert to
0 or 1, everything else raises (`none`). -/
def pyFloat : PyVal → Option ℚ
  | PyVal.pnum q => some q
  | PyVal.pstr _ => none
  | PyVal.pbool b => some (if b then 1 else 0)
  | PyVal.pnull => none

/-- A raw line item of the request body (`request.data` item dict): each of
the three required keys may be absent, and the numeric fields may hold any
JSON scalar.  `isCustom` is read with `item.get('isCustom', False)`. -/
structure RawItem where
  name : Option String
  price : Option PyVal
  quantity : Option PyVal
  isCustom : Bool := false
  deriving DecidableEq

/-- A line item as the computation code reads it: `item.get('name', '')`,
`float(item.get('price', 0))`, `float(item.get('quantity', 0))`. -/
structure Item where
  name : String
  price : ℚ
  quantity : ℚ
  isCustom : Bool := false
  deriving DecidableEq

/-- The numeric view of a raw item used by `create`, `update` and the stock
loop (missing fields default to `0` resp. the empty string, as with
`item.get(key, default)`). -/
def toItem (r : RawItem) : Item :=
  { name := r.name.getD ""
    price := (r.price.bind pyFloat).getD 0
    quantity := (r.quantity.bind pyFloat).getD 0
    isCustom := r.isCustom }

/-- Plan model (`account/models.py`), restricted to the fields the verified
operations read. -/
structure Plan where
  plan_key : String
  billing_requests : ℤ
  duration_days : ℤ
  has_unlimited_bills : Bool
  has_insights_dashboard : Bool
  has_sales_reports : Bool
  is_active : Bool
  deriving DecidableEq

/-- `Plan.is_unlimited` property: `billing_requests == 0 or has_unlimited_bills`. -/
def Plan.is_unlimited (p : Plan) : Bool :=
  decide (p.billing_requests = 0) || p.has_unlimited_bills

/-- User model (`account/models.py`), restricted to the fields the verified
operations read. -/
structure User where
  gst_percentage : ℚ
  current_plan : Option Plan
  plan_expiry_date : Option ℤ
  billing_requests_remaining : ℤ
  is_account_activated : Bool
  deriving DecidableEq

/-- `User.has_active_plan`: the expiry date exists and is strictly in the
future. -/
def User.has_active_plan (u : User) (now : ℤ) : Bool :=
  match u.plan_expiry_date with
  | none => false
  | some e => decide (now < e)

/-- `User.plan_key` property: the current plan's key, or `None`. -/
def User.plan_key (u : User) : Option String :=
  u.current_plan.map Plan.plan_key

/-- `User.can_create_bill`: activation flag, then active plan, then the
unlimited-plan shortcut, else a positive remaining count. -/
def User.can_create_bill (u : User) (now : ℤ) : Bool :=
  if u.is_account_activated = false then false
  else if u.has_active_plan now = false then false
  else
    match u.current_plan with
    | some p => if p.is_unlimited then true else decide (0 < u.billing_requests_remaining)
    | none => decide (0 < u.billing_requests_remaining)

/-- `User.decrement_billing_request`: decrement and persist when positive,
otherwise leave the user unchanged and report failure. -/
def User.decrement_billing_request (u : User) : User × Bool :=
  if 0 < u.billing_requests_remaining then
    ({ u with billing_requests_remaining := u.billing_requests_remaining - 1 }, true)
  else (u, false)

/-- Product model (`bill/models.py`), restricted to the fields the verified
operations read.  `stock_quantity` is a non-null decimal defaulting to 0. -/
structure Product where
  name : String
  price : ℚ
  manage_inventory : Bool
  stock_quantity : ℚ
  is_active : Bool
  deriving DecidableEq

/-- Bill model (`bill/models.py`): the embedded item list plus the four
amount fields, status, paid flag and a day-resolution creation stamp. -/
structure Bill where
  customer_name : String
  customer_phone : Option String
  items : List Item
  subtotal : ℚ
  cgst_amount : ℚ
  sgst_amount : ℚ
  total : ℚ
  status : String
  is_paid : Bool
  created_at : ℤ
  deriving DecidableEq

namespace BillSerializer

/-- Error message for a missing required item field
(`"Item {idx+1} is missing required field: {field}"`). -/
def msgMissing (idx : Nat) (fieldName : String) : String :=
  "Item " ++ toString (idx + 1) ++ " is missing required field: " ++ fieldName

/-- Error message for a field that does not convert to a number
(`"Item {idx+1} has invalid price"` / `"... invalid quantity"`). -/
def msgInvalid (idx : Nat) (fieldName : String) : String :=
  "Item " ++ toString (idx + 1) ++ " has invalid " ++ fieldName

/-- Error message for a negative price. -/
def msgNegPrice (idx : Nat) : String :=
  "Item " ++ toString (idx + 1) ++ " price must be non-negative"

/-- Error message for a non-positive quantity. -/
def msgNonPosQty (idx : Nat) : String :=
  "Item " ++ toString (idx + 1) ++ " quantity must be greater than zero"

/-- The validation applied to the item at position `idx` by
`BillSerializer.validate_items`: required-field presence in the order
name, price, quantity; then numeric conversion and sign of the price;
then numeric conversion and sign of the quantity.  `none` means valid. -/
def checkItem (idx : Nat) (it : RawItem) : Option String :=
  match it.name, it.price, it.quantity with
  | none, _, _ => some (msgMissing idx "name")
  | some _, none, _ => some (msgMissing idx "price")
  | some _, some _, none => some (msgMissing idx "quantity")
  | some _, some pv, some qv =>
    match pyFloat pv with
    | none => some (msgInvalid idx "price")
    | some p =>
      if p < 0 then some (msgNegPrice idx)
      else
        match pyFloat qv with
        | none => some (msgInvalid idx "quantity")
        | some q => if q ≤ 0 then some (msgNonPosQty idx) else none

/-- Raise-on-first-error semantics of the validation loop: the error of the
first offending item, indices starting at `idx`. -/
def firstErr : Nat → List RawItem → Option String
  | _, [] => none
  | idx, it :: rest =>
    match checkItem idx it with
    | some e => some e
    | none => firstErr (idx + 1) rest

/-- `BillSerializer.validate_items`: an empty list is rejected outright,
otherwise the first offending item aborts validation with its message. -/
def validate_items (raw : List RawItem) : Except String (List RawItem) :=
  if raw.isEmpty then Except.error "At least one item is required"
  else
    match firstErr 0 raw with
    | some e => Except.error e
    | none => Except.ok raw

/-- Semantic validity of one raw item: all three fields present, price
numeric and non-negative, quantity numeric and positive. -/
def itemOk (it : RawItem) : Bool :=
  match it.name, it.price, it.quantity with
  | some _, some pv, some qv =>
    match pyFloat pv, pyFloat qv with
    | some p, some q => decide (0 ≤ p) && decide (0 < q)
    | _, _ => false
  | _, _, _ => false

/-- Subtotal as computed by `BillSerializer.create` and `update`:
`sum(float(item.get('price', 0)) * int(item.get('quantity', 0)))` — note
the `int()` truncation of the quantity. -/
def subtotalOf (items : List Item) : ℚ :=
  (items.map (fun it => it.price * ((pyTrunc it.quantity : ℤ) : ℚ))).sum

/-- `BillSerializer.create`: computes the four amount fields and builds the
bill.  `subtotal` is stored as computed; `cgst_amount` and `sgst_amount`
are stored rounded; `total` is rounded from the unrounded components.
Status defaults to `completed`, `is_paid` to the model default `True`. -/
def create (user : User) (customer_name : String) (customer_phone : Option String)
    (statusArg : Option String) (is_paidArg : Option Bool) (items : List Item)
    (now : ℤ) : Bill :=
  let subtotal := subtotalOf items
  let half_gst := user.gst_percentage / 2
  let cgst_amount := subtotal * half_gst / 100
  let sgst_amount := subtotal * half_gst / 100
  { customer_name := customer_name
    customer_phone := customer_phone
    items := items
    subtotal := subtotal
    cgst_amount := round2 cgst_amount
    sgst_amount := round2 sgst_amount
    total := round2 (subtotal + cgst_amount + sgst_amount)
    status := statusArg.getD "completed"
    is_paid := is_paidArg.getD true
    created_at := now }

/-- The fields an update request may carry; `none` means the key was absent
from `validated_data`. -/
structure UpdateData where
  customer_name : Option String
  customer_phone : Option String
  status : Option String
  is_paid : Option Bool
  items : Option (List Item)

/-- `BillSerializer.update`: customer fields, status and paid flag are
overwritten when supplied; when `items` is supplied all four amount fields
are recomputed exactly as in `create`, otherwise they are left untouched.
`user` is `instance.user`, the bill owner. -/
def update (inst : Bill) (user : User) (d : UpdateData) : Bill :=
  let b1 := { inst with
    customer_name := d.customer_name.getD inst.customer_name
    customer_phone := match d.customer_phone with
      | some cp => some cp
      | none => inst.customer_phone }
  let b2 := match d.status with
    | some s => { b1 with status := s }
    | none => b1
  let b3 := match d.is_paid with
    | some p => { b2 with is_paid := p }
    | none => b2
  match d.items with
  | none => b3
  | some items =>
    let subtotal := subtotalOf items
    let half_gst := user.gst_percentage / 2
    let cgst_amount := subtotal * half_gst / 100
    let sgst_amount := subtotal * half_gst / 100
    { b3 with
      items := items
      subtotal := subtotal
      cgst_amount := round2 cgst_amount
      sgst_amount := round2 sgst_amount
      total := round2 (subtotal + cgst_amount + sgst_amount) }

end BillSerializer

/-- The active catalog products of the bill owner matching a given item
name (the candidates of `Product.objects.get(name=..., user=user,
is_active=True)`). -/
def activeMatches (name : String) (products : List Product) : List Product :=
  products.filter (fun p => p.name = name && p.is_active)

/-- One iteration of the stock-decrement loop in `create_bill`: custom
items, falsy names and non-positive quantities are skipped; the catalog
lookup must find exactly one active product (zero matches raise
`DoesNotExist`, several raise `MultipleObjectsReturned`, and both are
caught and skipped); a matched product's stock drops by the exact item
quantity, floored at zero. -/
def applyStock (products : List Product) (it : Item) : List Product :=
  if it.name ≠ "" ∧ 0 < it.quantity ∧ it.isCustom = false then
    if (activeMatches it.name products).length = 1 then
      products.map (fun p =>
        if p.name = it.name ∧ p.is_active = true then
          { p with stock_quantity := max 0 (p.stock_quantity - it.quantity) }
        else p)
    else products
  else products

/-- The whole stock-decrement loop of `create_bill`, item by item in order. -/
def reduceStock (items : List Item) (products : List Product) : List Product :=
  items.foldl applyStock products

/-- The per-user persistent state touched by bill creation. -/
structure SysState where
  user : User
  products : List Product
  bills : List Bill
  deriving DecidableEq

/-- Response of the `POST /bills` endpoint: a 403 with a message, a 400
with the validation message, or a 201 carrying the bill (and, for trial
users, the remaining request count). -/
inductive BillResponse where
  | forbidden (msg : String)
  | badRequest (msg : String)
  | created (bill : Bill) (remaining_requests : Option ℤ)
  deriving DecidableEq

/-- `create_bill` (`bill/views.py`): plan-expiry gate, trial-quota gate,
item validation, bill construction, stock decrement over the request
items, and the trial-plan quota decrement. -/
def create_bill (st : SysState) (now : ℤ) (customer_name : String)
    (customer_phone : Option String) (statusArg : Option String)
    (is_paidArg : Option Bool) (raw : List RawItem) : SysState × BillResponse :=
  let user := st.user
  if user.has_active_plan now = false then
    (st, BillResponse.forbidden "Your billing plan has expired. Please renew to create bills.")
  else if user.plan_key = some "trial" ∧ user.billing_requests_remaining ≤ 0 then
    (st, BillResponse.forbidden "You have no billing requests remaining. Please upgrade your plan.")
  else
    match BillSerializer.validate_items raw with
    | Except.error e => (st, BillResponse.badRequest e)
    | Except.ok _ =>
      let items := raw.map toItem
      let bill := BillSerializer.create user customer_name customer_phone statusArg is_paidArg items now
      let products2 := reduceStock items st.products
      let user2 := if user.plan_key = some "trial" then (user.decrement_billing_request).1 else user
      ({ user := user2, products := products2, bills := st.bills ++ [bill] },
       BillResponse.created bill
         (if user2.plan_key = some "trial" then some user2.billing_requests_remaining else none))

/-- `check_dashboard_permission` (`dashboard/views.py`): no plan means no
access, otherwise the insights-dashboard feature flag decides. -/
def check_dashboard_permission (u : User) : Bool :=
  match u.current_plan with
  | none => false
  | some p => p.has_insights_dashboard

/-- `check_reports_permission` (`dashboard/views.py`): no plan means no
access, otherwise the sales-reports feature flag decides. -/
def check_reports_permission (u : User) : Bool :=
  match u.current_plan with
  | none => false
  | some p => p.has_sales_reports

/-- Response of a dashboard/report endpoint: the 403 body with the
`upgrade_required` marker carries no data at all, the 200 body carries the
aggregates. -/
inductive DashResult (α : Type) where
  | notEntitled
  | ok (data : α)
  deriving DecidableEq

/-- Bills with status `completed` (the revenue filters). -/
def completedOf (bills : List Bill) : List Bill :=
  bills.filter (fun b => b.status = "completed")

/-- `Sum('total')` with the `or Decimal('0')` fallback. -/
def sumTotal (bills : List Bill) : ℚ := (bills.map Bill.total).sum

/-- `Avg('total')` with the `or Decimal('0')` fallback for an empty set. -/
def avgTotal (bills : List Bill) : ℚ :=
  if bills.length = 0 then 0 else sumTotal bills / bills.length

/-- Accumulate a quantity into the per-product running dict, preserving
Python dict insertion order. -/
def addQty (acc : List (String × ℚ)) (name : String) (q : ℚ) : List (String × ℚ) :=
  if (acc.find? (fun kv => kv.1 = name)).isSome then
    acc.map (fun kv => if kv.1 = name then (kv.1, kv.2 + q) else kv)
  else acc ++ [(name, q)]

/-- The `product_sales` dict of `dashboard_overview`: total quantity per
product name over the given bills, skipping custom items and falsy names. -/
def productSales (bills : List Bill) : List (String × ℚ) :=
  bills.foldl
    (fun acc b =>
      b.items.foldl
        (fun acc2 it =>
          if it.isCustom then acc2
          else if it.name ≠ "" then addQty acc2 it.name it.quantity
          else acc2)
        acc)
    []

/-- Python `max(pairs, key=value)`: the first pair with the maximal second
component, `none` on an empty dict. -/
def maxBySnd : List (String × ℚ) → Option (String × ℚ)
  | [] => none
  | kv :: rest => some (rest.foldl (fun best x => if best.2 < x.2 then x else best) kv)

/-- The body of the `dashboard_overview` response. -/
structure OverviewData where
  total_revenue : ℚ
  total_bills : ℕ
  month_revenue : ℚ
  month_bills : ℕ
  week_revenue : ℚ
  avg_bill_value : ℚ
  total_products : ℕ
  low_stock_count : ℕ
  out_of_stock_count : ℕ
  top_product : Option (String × ℚ)
  deriving DecidableEq

/-- `dashboard_overview`: permission gate first, then the aggregates.
`today` and `month_start` are the dates the view derives from the clock. -/
def dashboard_overview (u : User) (bills : List Bill) (products : List Product)
    (today month_start : ℤ) : DashResult OverviewData :=
  if check_dashboard_permission u = false then DashResult.notEntitled
  else
    let thirty_days_ago := today - 30
    let seven_days_ago := today - 7
    DashResult.ok
      { total_revenue := sumTotal (completedOf bills)
        total_bills := bills.length
        month_revenue := sumTotal ((completedOf bills).filter (fun b => month_start ≤ b.created_at))
        month_bills := (bills.filter (fun b => month_start ≤ b.created_at)).length
        week_revenue := sumTotal ((completedOf bills).filter (fun b => seven_days_ago ≤ b.created_at))
        avg_bill_value := avgTotal (completedOf bills)
        total_products := (products.filter (fun p => p.is_active)).length
        low_stock_count := (products.filter (fun p =>
          p.is_active && p.manage_inventory
            && decide (p.stock_quantity < 10) && decide (0 < p.stock_quantity))).length
        out_of_stock_count := (products.filter (fun p =>
          p.is_active && p.manage_inventory && decide (p.stock_quantity ≤ 0))).length
        top_product := maxBySnd (productSales (bills.filter (fun b => thirty_days_ago ≤ b.created_at))) }

/-- Group bills by an integer key, ordered by key ascending, yielding
key, summed total and bill count per group (the `values(...).annotate`
aggregation). -/
def groupTotals (key : Bill → ℤ) (bills : List Bill) : List (ℤ × ℚ × ℕ) :=
  (((bills.map key).dedup).mergeSort (fun a b => decide (a ≤ b))).map
    (fun k =>
      (k, sumTotal (bills.filter (fun b => key b = k)),
       (bills.filter (fun b => key b = k)).length))

/-- `monthly_sales`: completed bills of the trailing year grouped by
calendar month (`truncMonth` stands for Django `TruncMonth`). -/
def monthly_sales (u : User) (bills : List Bill) (today : ℤ)
    (truncMonth : ℤ → ℤ) : DashResult (List (ℤ × ℚ × ℕ)) :=
  if check_dashboard_permission u = false then DashResult.notEntitled
  else
    DashResult.ok (groupTotals (fun b => truncMonth b.created_at)
      (bills.filter (fun b => b.status = "completed" && decide (today - 365 ≤ b.created_at))))

/-- `daily_sales`: completed bills of the trailing 30 days grouped by day
(`created_at` is already day-resolution). -/
def daily_sales (u : User) (bills : List Bill) (today : ℤ) :
    DashResult (List (ℤ × ℚ × ℕ)) :=
  if check_dashboard_permission u = false then DashResult.notEntitled
  else
    DashResult.ok (groupTotals (fun b => b.created_at)
      (bills.filter (fun b => b.status = "completed" && decide (today - 30 ≤ b.created_at))))

/-- Accumulate quantity and revenue into the per-product running dicts
(`product_sales` and `product_revenue`), insertion-ordered. -/
def addQtyRev (acc : List (String × ℚ × ℚ)) (name : String) (q r : ℚ) :
    List (String × ℚ × ℚ) :=
  if (acc.find? (fun kv => kv.1 = name)).isSome then
    acc.map (fun kv => if kv.1 = name then (kv.1, kv.2.1 + q, kv.2.2 + r) else kv)
  else acc ++ [(name, q, r)]

/-- Per-product quantity and revenue over the items of the given bills.
`skipCustom` is true for `product_insights` (which ignores custom items)
and false for `sales_report` (which does not). -/
def productSalesRev (skipCustom : Bool) (bills : List Bill) : List (String × ℚ × ℚ) :=
  bills.foldl
    (fun acc b =>
      b.items.foldl
        (fun acc2 it =>
          if skipCustom && it.isCustom then acc2
          else if it.name ≠ "" then addQtyRev acc2 it.name it.quantity (it.quantity * it.price)
          else acc2)
        acc)
    []

/-- The body of the `product_insights` response. -/
structure ProductInsightsData where
  low_stock_products : List Product
  out_of_stock_products : List Product
  top_selling_products : List (String × ℚ × ℚ)
  deriving DecidableEq

/-- `product_insights`: permission gate, then the low/out-of-stock product
lists and the 30-day top sellers sorted by quantity descending (a stable
sort, as Python `sorted(..., reverse=True)`), each capped at ten. -/
def product_insights (u : User) (bills : List Bill) (products : List Product)
    (today : ℤ) : DashResult ProductInsightsData :=
  if check_dashboard_permission u = false then DashResult.notEntitled
  else
    let thirty_days_ago := today - 30
    DashResult.ok
      { low_stock_products :=
          ((products.filter (fun p =>
              p.is_active && p.manage_inventory
                && decide (p.stock_quantity < 10) && decide (0 < p.stock_quantity))).mergeSort
            (fun a b => decide (a.stock_quantity ≤ b.stock_quantity))).take 10
        out_of_stock_products :=
          (products.filter (fun p =>
            p.is_active && p.manage_inventory && decide (p.stock_quantity ≤ 0))).take 10
        top_selling_products :=
          ((productSalesRev true (bills.filter (fun b => thirty_days_ago ≤ b.created_at))).mergeSort
            (fun a b => decide (b.2.1 ≤ a.2.1))).take 10 }

/-- The body of the `revenue_breakdown` response. -/
structure RevenueBreakdownData where
  today_revenue : ℚ
  yesterday_revenue : ℚ
  week_revenue : ℚ
  month_revenue : ℚ
  last_month_revenue : ℚ
  month_growth : ℚ
  deriving DecidableEq

/-- `revenue_breakdown`: permission gate, then completed-bill revenue for
today, yesterday, the trailing week, the current month and the previous
month, plus the month-over-month growth percentage (zero when the previous
month had no revenue). -/
def revenue_breakdown (u : User) (bills : List Bill)
    (today month_start last_month_start last_month_end : ℤ) :
    DashResult RevenueBreakdownData :=
  if check_dashboard_permission u = false then DashResult.notEntitled
  else
    let cb := completedOf bills
    let month_revenue := sumTotal (cb.filter (fun b => month_start ≤ b.created_at))
    let last_month_revenue := sumTotal (cb.filter (fun b =>
      last_month_start ≤ b.created_at && decide (b.created_at ≤ last_month_end)))
    DashResult.ok
      { today_revenue := sumTotal (cb.filter (fun b => b.created_at = today))
        yesterday_revenue := sumTotal (cb.filter (fun b => b.created_at = today - 1))
        week_revenue := sumTotal (cb.filter (fun b => today - 7 ≤ b.created_at))
        month_revenue := month_revenue
        last_month_revenue := last_month_revenue
        month_growth :=
          if 0 < last_month_revenue then
            ((month_revenue - last_month_revenue) / last_month_revenue) * 100
          else 0 }

/-- Top customers by revenue over completed bills: per-customer summed
totals in insertion order, skipping falsy names. -/
def customerRevenue (bills : List Bill) : List (String × ℚ) :=
  bills.foldl
    (fun acc b => if b.customer_name ≠ "" then addQty acc b.customer_name b.total else acc)
    []

/-- The body of the `sales_report` response. -/
structure SalesReportData where
  total_bills : ℕ
  completed_bills : ℕ
  pending_bills : ℕ
  total_revenue : ℚ
  total_subtotal : ℚ
  total_cgst : ℚ
  total_sgst : ℚ
  avg_bill_value : ℚ
  daily_breakdown : List (ℤ × ℚ × ℕ)
  top_customers : List (String × ℚ)
  top_products : List (String × ℚ × ℚ)
  deriving DecidableEq

/-- `sales_report`: reports-permission gate, then counts, sums and averages
over the bills of the requested date range, the per-day breakdown of
completed bills, the top customers by revenue and the top products by
revenue (the product scan does not exclude custom items). -/
def sales_report (u : User) (bills : List Bill) (start_date end_date : ℤ) :
    DashResult SalesReportData :=
  if check_reports_permission u = false then DashResult.notEntitled
  else
    let inRange := bills.filter (fun b =>
      start_date ≤ b.created_at && decide (b.created_at ≤ end_date))
    let cb := completedOf inRange
    DashResult.ok
      { total_bills := inRange.length
        completed_bills := cb.length
        pending_bills := (inRange.filter (fun b => b.status = "pending")).length
        total_revenue := sumTotal cb
        total_subtotal := (cb.map Bill.subtotal).sum
        total_cgst := (cb.map Bill.cgst_amount).sum
        total_sgst := (cb.map Bill.sgst_amount).sum
        avg_bill_value := avgTotal cb
        daily_breakdown := groupTotals (fun b => b.created_at) cb
        top_customers :=
          ((customerRevenue cb).mergeSort (fun a b => decide (b.2 ≤ a.2))).take 10
        top_products :=
          ((productSalesRev false inRange).mergeSort (fun a b => decide (b.2.2 ≤ a.2.2))).take 10 }

/-- The body of the `inventory_report` response. -/
structure InventoryReportData where
  total_products : ℕ
  in_stock : ℕ
  low_stock : ℕ
  out_of_stock : ℕ
  total_inventory_value : ℚ
  critical_products : List Product
  low_stock_products : List Product
  all_products : List Product
  deriving DecidableEq

/-- `inventory_report`: reports-permission gate, then the stock-threshold
classification of the active inventory-managed products (out of stock ≤ 0,
low stock strictly between 0 and 10, in stock ≥ 10), the summed inventory
value, and the product lists. -/
def inventory_report (u : User) (products : List Product) :
    DashResult InventoryReportData :=
  if check_reports_permission u = false then DashResult.notEntitled
  else
    let ps := products.filter (fun p => p.is_active && p.manage_inventory)
    DashResult.ok
      { total_products := ps.length
        in_stock := (ps.filter (fun p => decide ((10 : ℚ) ≤ p.stock_quantity))).length
        low_stock := (ps.filter (fun p =>
          decide ((0 : ℚ) < p.stock_quantity) && decide (p.stock_quantity < 10))).length
        out_of_stock := (ps.filter (fun p => decide (p.stock_quantity ≤ 0))).length
        total_inventory_value := (ps.map (fun p => p.price * p.stock_quantity)).sum
        critical_products := ps.filter (fun p => decide (p.stock_quantity ≤ 0))
        low_stock_products := ps.filter (fun p =>
          decide ((0 : ℚ) < p.stock_quantity) && decide (p.stock_quantity < 10))
        all_products := ps.mergeSort (fun a b => decide (a.name ≤ b.name)) }

/-- Modelled from the spec: subtotal = Σ over items of price × quantity,
with exact arithmetic and no truncation of the quantity. -/
def specSubtotal (items : List Item) : ℚ :=
  (items.map (fun it => it.price * it.quantity)).sum

/-- An unlimited non-trial plan used as a concrete test fixture. -/
def premiumPlan : Plan :=
  { plan_key := "premium", billing_requests := 0, duration_days := 30,
    has_unlimited_bills := true, has_insights_dashboard := false,
    has_sales_reports := false, is_active := true }

/-- The metered trial plan used as a concrete test fixture. -/
def trialPlan : Plan :=
  { plan_key := "trial", billing_requests := 10, duration_days := 7,
    has_unlimited_bills := false, has_insights_dashboard := false,
    has_sales_reports := false, is_active := true }

/-- A concrete user fixture: a plan and remaining count as given, account
deactivated or activated as given, no GST. -/
def mkUser (plan : Option Plan) (expiry : Option ℤ) (rem : ℤ) (act : Bool) : User :=
  { gst_percentage := 0, current_plan := plan, plan_expiry_date := expiry,
    billing_requests_remaining := rem, is_account_activated := act }

/-- A concrete raw line item fixture with numeric price and quantity. -/
def mkRawItem (name : String) (price quantity : ℚ) : RawItem :=
  { name := some name, price := some (PyVal.pnum price),
    quantity := some (PyVal.pnum quantity), isCustom := false }


/-- A concrete catalog product fixture with the given stock. -/
def mkProduct (name : String) (stock : ℚ) : Product :=
  { name := name, price := 10, manage_inventory := true,
    stock_quantity := stock, is_active := true }

/-- A concrete validated line item fixture with the given quantity. -/
def mkItem (name : String) (quantity : ℚ) : Item :=
  { name := name, price := 10, quantity := quantity, isCustom := false }

/-- A concrete persisted bill fixture. -/
def bill0 : Bill :=
  { customer_name := "Asha", customer_phone := none,
    items := [mkItem "Pen" 2], subtotal := 20, cgst_amount := 0,
    sgst_amount := 0, total := 20, status := "completed",
    is_paid := true, created_at := 0 }

/-- A plan fixture with both reporting feature flags enabled. -/
def reportingPlan : Plan :=
  { plan_key := "platinum", billing_requests := 0, duration_days := 30,
    has_unlimited_bills := true, has_insights_dashboard := true,
    has_sales_reports := true, is_active := true }

lemma roundHalfEven_lo (q : ℚ) (f : ℤ) (h1 : (f : ℚ) ≤ q) (h2 : q - f < 1/2) :
    roundHalfEven q = f := by
  have hf : ⌊q⌋ = f := by
    rw [Int.floor_eq_iff]
    exact ⟨h1, by linarith⟩
  simp only [roundHalfEven, hf]
  rw [if_pos h2]

lemma roundHalfEven_hi (q : ℚ) (f : ℤ) (h1 : 1/2 < q - f) (h2 : q < (f : ℚ) + 1) :
    roundHalfEven q = f + 1 := by
  have hf : ⌊q⌋ = f := by
    rw [Int.floor_eq_iff]
    exact ⟨by linarith, by linarith⟩
  simp only [roundHalfEven, hf]
  rw [if_neg (by linarith), if_pos h1]

lemma round2_eval_lo (q : ℚ) (f : ℤ) (h1 : (f : ℚ) ≤ q * 100) (h2 : q * 100 - f < 1/2) :
    round2 q = (f : ℚ) / 100 := by
  rw [round2, roundHalfEven_lo _ f h1 h2]

lemma round2_eval_hi (q : ℚ) (f : ℤ) (h1 : 1/2 < q * 100 - f) (h2 : q * 100 < (f : ℚ) + 1) :
    round2 q = ((f : ℚ) + 1) / 100 := by
  rw [round2, roundHalfEven_hi _ f h1 h2]
  push_cast
  ring

lemma pyTrunc_of_nonneg (q : ℚ) (h : 0 ≤ q) : pyTrunc q = ⌊q⌋ := by
  simp [pyTrunc, not_lt.mpr h]

lemma roundHalfEven_abs (q : ℚ) : |(roundHalfEven q : ℚ) - q| ≤ 1/2 := by
  have h1 : (⌊q⌋ : ℚ) ≤ q := Int.floor_le q
  have h2 : q < ⌊q⌋ + 1 := Int.lt_floor_add_one q
  simp only [roundHalfEven]
  split_ifs with ha hb hc
  · rw [abs_sub_comm, abs_of_nonneg (by linarith)]
    linarith
  · rw [abs_of_nonneg (by push_cast; linarith)]
    push_cast
    linarith
  · rw [abs_sub_comm, abs_of_nonneg (by linarith)]
    linarith
  · rw [abs_of_nonneg (by push_cast; linarith)]
    push_cast
    linarith

lemma round2_abs (q : ℚ) : |round2 q - q| ≤ 1/200 := by
  have h := roundHalfEven_abs (q * 100)
  have key : round2 q - q = ((roundHalfEven (q * 100) : ℚ) - q * 100) / 100 := by
    rw [round2]; ring
  rw [key, abs_div, abs_of_nonneg (by norm_num : (0:ℚ) ≤ 100)]
  linarith


/-- C1: the claim states that for every valid item list the persisted
subtotal is Σ price × quantity, also for fractional quantities such as 1.5.
The code bug: `create` computes the subtotal with `int(item['quantity'])`,
truncating the quantity, while the validator accepts fractional quantities
and the stock-decrement loop handles them exactly.  At the failing input
(one item, price 10, quantity 1.5) the validator accepts, the code stores
subtotal 10, and the specified subtotal is 15. -/
theorem C1_subtotal_truncates_fractional_quantity :
    BillSerializer.validate_items
        [{ name := some "Pen", price := some (PyVal.pnum 10),
           quantity := some (PyVal.pnum (3/2)), isCustom := false }]
      = Except.ok
        [{ name := some "Pen", price := some (PyVal.pnum 10),
           quantity := some (PyVal.pnum (3/2)), isCustom := false }]
    ∧ toItem { name := some "Pen", price := some (PyVal.pnum 10),
               quantity := some (PyVal.pnum (3/2)), isCustom := false }
      = { name := "Pen", price := 10, quantity := 3/2, isCustom := false }
    ∧ BillSerializer.subtotalOf
        [{ name := "Pen", price := 10, quantity := 3/2, isCustom := false }] = 10
    ∧ specSubtotal
        [{ name := "Pen", price := 10, quantity := 3/2, isCustom := false }] = 15 := by
  refine ⟨?_, rfl, ?_, ?_⟩
  · have hp : ¬((10 : ℚ) < 0) := by norm_num
    have hq : ¬((3/2 : ℚ) ≤ 0) := by norm_num
    simp [BillSerializer.validate_items, BillSerializer.firstErr,
      BillSerializer.checkItem, pyFloat, hp, hq]
  · have hfl : ⌊(3/2 : ℚ)⌋ = 1 := by
      rw [Int.floor_eq_iff]
      norm_num
    have ht : pyTrunc (3/2 : ℚ) = 1 := by
      rw [pyTrunc_of_nonneg _ (by norm_num), hfl]
    simp [BillSerializer.subtotalOf, ht]
  · rw [specSubtotal]
    norm_num

/-- C2 counterexample: with GST 18% and a single item of price 100.05 and
quantity 1, the stored total (118.06, rounded from the unrounded components
100.05 + 9.0045 + 9.0045) differs from the claim's value, the rounded sum
of the stored components (100.05 + 9.00 + 9.00 = 118.05). -/
theorem C2_counterexample_stored_components :
    (BillSerializer.create
        { gst_percentage := 18, current_plan := none, plan_expiry_date := some 1,
          billing_requests_remaining := 0, is_account_activated := true }
        "Asha" none none none
        [{ name := "Widget", price := 2001/20, quantity := 1, isCustom := false }] 0).total
      ≠ round2
        ((BillSerializer.create
            { gst_percentage := 18, current_plan := none, plan_expiry_date := some 1,
              billing_requests_remaining := 0, is_account_activated := true }
            "Asha" none none none
            [{ name := "Widget", price := 2001/20, quantity := 1, isCustom := false }] 0).subtotal
          + (BillSerializer.create
              { gst_percentage := 18, current_plan := none, plan_expiry_date := some 1,
                billing_requests_remaining := 0, is_account_activated := true }
              "Asha" none none none
              [{ name := "Widget", price := 2001/20, quantity := 1, isCustom := false }] 0).cgst_amount
          + (BillSerializer.create
              { gst_percentage := 18, current_plan := none, plan_expiry_date := some 1,
                billing_requests_remaining := 0, is_account_activated := true }
              "Asha" none none none
              [{ name := "Widget", price := 2001/20, quantity := 1, isCustom := false }] 0).sgst_amount) := by
  have ht1 : pyTrunc (1 : ℚ) = 1 := by
    rw [pyTrunc_of_nonneg _ (by norm_num)]
    exact Int.floor_one
  have hs : BillSerializer.subtotalOf
      [{ name := "Widget", price := 2001/20, quantity := 1, isCustom := false }] = 2001/20 := by
    simp [BillSerializer.subtotalOf, ht1]
  have hcg : round2 ((2001/20 : ℚ) * (18/2) / 100) = 9 := by
    have harg : (2001/20 : ℚ) * (18/2) / 100 = 18009/2000 := by norm_num
    rw [harg, round2_eval_lo _ 900 (by norm_num) (by norm_num)]
    norm_num
  have htot : round2 ((2001/20 : ℚ) + (2001/20) * (18/2) / 100 + (2001/20) * (18/2) / 100)
      = 5903/50 := by
    have harg : (2001/20 : ℚ) + (2001/20) * (18/2) / 100 + (2001/20) * (18/2) / 100
        = 118059/1000 := by norm_num
    rw [harg, round2_eval_hi _ 11805 (by norm_num) (by norm_num)]
    norm_num
  have hrhs : round2 ((2001/20 : ℚ) + 9 + 9) = 2361/20 := by
    have harg : (2001/20 : ℚ) + 9 + 9 = 2361/20 := by norm_num
    rw [harg, round2_eval_lo _ 11805 (by norm_num) (by norm_num)]
    norm_num
  simp only [BillSerializer.create, hs]
  rw [hcg, htot, hrhs]
  norm_num

/-- C2 (amended): the stored cgst and sgst are the identical rounded value
round(subtotal × (gst/2) / 100, 2), but the stored total is rounded from
the UNROUNDED components, total = round(subtotal + c + c, 2) with
c = subtotal × (gst/2) / 100; consequently the stored total can differ
from round(subtotal + cgst + sgst, 2) though never by more than 0.015.
The spec's example (GST 18, subtotal 100 → cgst = sgst = 9.00,
total = 118.00) does hold. -/
theorem C2_amended_tax_total_formulas :
    (∀ (u : User) (cn : String) (cp sa : Option String) (ip : Option Bool)
        (items : List Item) (now : ℤ),
      (BillSerializer.create u cn cp sa ip items now).subtotal
          = BillSerializer.subtotalOf items
      ∧ (BillSerializer.create u cn cp sa ip items now).cgst_amount
          = round2 (BillSerializer.subtotalOf items * (u.gst_percentage / 2) / 100)
      ∧ (BillSerializer.create u cn cp sa ip items now).sgst_amount
          = (BillSerializer.create u cn cp sa ip items now).cgst_amount
      ∧ (BillSerializer.create u cn cp sa ip items now).total
          = round2 (BillSerializer.subtotalOf items
              + BillSerializer.subtotalOf items * (u.gst_percentage / 2) / 100
              + BillSerializer.subtotalOf items * (u.gst_percentage / 2) / 100)
      ∧ |(BillSerializer.create u cn cp sa ip items now).total
            - ((BillSerializer.create u cn cp sa ip items now).subtotal
              + (BillSerializer.create u cn cp sa ip items now).cgst_amount
              + (BillSerializer.create u cn cp sa ip items now).sgst_amount)| ≤ 3/200)
    ∧ ((BillSerializer.create
          { gst_percentage := 18, current_plan := none, plan_expiry_date := some 1,
            billing_requests_remaining := 0, is_account_activated := true }
          "Dev" none none none
          [{ name := "Thing", price := 100, quantity := 1, isCustom := false }] 0).cgst_amount = 9
      ∧ (BillSerializer.create
          { gst_percentage := 18, current_plan := none, plan_expiry_date := some 1,
            billing_requests_remaining := 0, is_account_activated := true }
          "Dev" none none none
          [{ name := "Thing", price := 100, quantity := 1, isCustom := false }] 0).sgst_amount = 9
      ∧ (BillSerializer.create
          { gst_percentage := 18, current_plan := none, plan_expiry_date := some 1,
            billing_requests_remaining := 0, is_account_activated := true }
          "Dev" none none none
          [{ name := "Thing", price := 100, quantity := 1, isCustom := false }] 0).total = 118) := by
  constructor
  · intro u cn cp sa ip items now
    refine ⟨rfl, rfl, rfl, rfl, ?_⟩
    simp only [BillSerializer.create]
    set s := BillSerializer.subtotalOf items with hs
    set c := s * (u.gst_percentage / 2) / 100 with hc
    have hA := round2_abs (s + c + c)
    have hB : |c - round2 c| ≤ 1/200 := by
      rw [abs_sub_comm]
      exact round2_abs c
    have key : round2 (s + c + c) - (s + round2 c + round2 c)
        = (round2 (s + c + c) - (s + c + c)) + ((c - round2 c) + (c - round2 c)) := by
      ring
    rw [key]
    have t1 := abs_add (round2 (s + c + c) - (s + c + c)) ((c - round2 c) + (c - round2 c))
    have t2 := abs_add (c - round2 c) (c - round2 c)
    linarith
  · have ht1 : pyTrunc (1 : ℚ) = 1 := by
      rw [pyTrunc_of_nonneg _ (by norm_num)]
      exact Int.floor_one
    have hs : BillSerializer.subtotalOf
        [{ name := "Thing", price := 100, quantity := 1, isCustom := false }] = 100 := by
      simp [BillSerializer.subtotalOf, ht1]
    have hcg : round2 ((100 : ℚ) * (18/2) / 100) = 9 := by
      have harg : (100 : ℚ) * (18/2) / 100 = 9 := by norm_num
      rw [harg, round2_eval_lo _ 900 (by norm_num) (by norm_num)]
      norm_num
    have htot : round2 ((100 : ℚ) + 100 * (18/2) / 100 + 100 * (18/2) / 100) = 118 := by
      have harg : (100 : ℚ) + 100 * (18/2) / 100 + 100 * (18/2) / 100 = 118 := by norm_num
      rw [harg, round2_eval_lo _ 11800 (by norm_num) (by norm_num)]
      norm_num
    simp only [BillSerializer.create, hs]
    exact ⟨hcg, hcg, htot⟩


/-- C3: the bill-creation endpoint authorizes using only the active-plan
check and, for the trial plan key, the remaining-request count; it never
consults the activation flag (nor `can_create_bill`), so its response,
resulting product list and resulting bill list are invariant under the
activation flag, and a concrete deactivated user with an unexpired plan
gets a bill created. -/
theorem C3_activation_flag_not_consulted :
    (∀ (st : SysState) (b : Bool) (now : ℤ) (cn : String) (cp sa : Option String)
        (ip : Option Bool) (raw : List RawItem),
      (create_bill { st with user := { st.user with is_account_activated := b } }
          now cn cp sa ip raw).2
        = (create_bill st now cn cp sa ip raw).2
      ∧ (create_bill { st with user := { st.user with is_account_activated := b } }
          now cn cp sa ip raw).1.products
        = (create_bill st now cn cp sa ip raw).1.products
      ∧ (create_bill { st with user := { st.user with is_account_activated := b } }
          now cn cp sa ip raw).1.bills
        = (create_bill st now cn cp sa ip raw).1.bills)
    ∧ (∃ bill rem,
        (create_bill
            { user := mkUser (some premiumPlan) (some 10) 0 false,
              products := [], bills := [] }
            0 "Cust" none none none [mkRawItem "Pen" 10 2]).2
          = BillResponse.created bill rem
        ∧ (mkUser (some premiumPlan) (some 10) 0 false).is_account_activated = false) := by
  constructor
  · intro st b now cn cp sa ip raw
    rcases st with ⟨⟨g, cpl, pe, rem, act⟩, ps, bs⟩
    simp only [create_bill, User.has_active_plan, User.plan_key,
      User.decrement_billing_request, BillSerializer.create]
    split_ifs <;>
      first
        | exact ⟨rfl, rfl, rfl⟩
        | (cases hv : BillSerializer.validate_items raw <;> simp [hv])
  · refine ⟨BillSerializer.create (mkUser (some premiumPlan) (some 10) 0 false)
      "Cust" none none none ([mkRawItem "Pen" 10 2].map toItem) 0, none, ?_, rfl⟩
    have hp : ¬((10 : ℚ) < 0) := by norm_num
    have hq : ¬((2 : ℚ) ≤ 0) := by norm_num
    simp [create_bill, User.has_active_plan, User.plan_key, mkUser, mkRawItem,
      premiumPlan, BillSerializer.validate_items, BillSerializer.firstErr,
      BillSerializer.checkItem, pyFloat, hp, hq]

/-- C4: `can_create_bill` is exactly: activation flag, and an existing
future expiry timestamp, and (unlimited current plan or a positive
remaining count), with `is_unlimited` exactly `billing_requests = 0` or
the unlimited-bills flag; a deactivated user never passes, and for an
unlimited current plan the remaining count is ignored. -/
theorem C4_can_create_bill_characterization :
    (∀ p : Plan, p.is_unlimited = true ↔
      (p.billing_requests = 0 ∨ p.has_unlimited_bills = true))
    ∧ (∀ (u : User) (now : ℤ),
        u.can_create_bill now = true ↔
          (u.is_account_activated = true
            ∧ (∃ e, u.plan_expiry_date = some e ∧ now < e)
            ∧ ((∃ p, u.current_plan = some p ∧ p.is_unlimited = true)
                ∨ 0 < u.billing_requests_remaining)))
    ∧ (∀ (u : User) (now : ℤ),
        u.is_account_activated = false → u.can_create_bill now = false)
    ∧ (∀ (u : User) (now : ℤ) (p : Plan) (r : ℤ),
        u.current_plan = some p → p.is_unlimited = true →
        ({ u with billing_requests_remaining := r } : User).can_create_bill now
          = u.can_create_bill now) := by
  refine ⟨?_, ?_, ?_, ?_⟩
  · intro p
    simp [Plan.is_unlimited, decide_eq_true_iff]
  · intro u now
    rcases u with ⟨g, cpl, pe, rem, act⟩
    cases act <;> cases pe <;> cases cpl <;>
      simp [User.can_create_bill, User.has_active_plan, decide_eq_true_iff]
  · intro u now h
    simp [User.can_create_bill, h]
  · intro u now p r hp hu
    simp [User.can_create_bill, User.has_active_plan, hp, hu]

/-- Witness for C4 at concrete users: a deactivated user with a valid
unexpired unlimited plan fails `can_create_bill`, and changing the
remaining count of an activated unlimited-plan user does not change the
outcome. -/
theorem C4_can_create_bill_witness :
    (mkUser (some premiumPlan) (some 10) 3 false).can_create_bill 0 = false
    ∧ ({ mkUser (some premiumPlan) (some 10) 0 true with
          billing_requests_remaining := 99 } : User).can_create_bill 0
      = (mkUser (some premiumPlan) (some 10) 0 true).can_create_bill 0 :=
  ⟨C4_can_create_bill_characterization.2.2.1 _ 0 rfl,
   C4_can_create_bill_characterization.2.2.2 _ 0 premiumPlan 99 rfl rfl⟩

/-- C5: a user whose plan key is trial and whose remaining count is not
positive gets a 403 response from bill creation and the state (user,
products, bills) is returned unchanged. -/
theorem C5_trial_quota_exhausted_rejected :
    ∀ (st : SysState) (now : ℤ) (cn : String) (cp sa : Option String)
      (ip : Option Bool) (raw : List RawItem),
      st.user.plan_key = some "trial" →
      st.user.billing_requests_remaining ≤ 0 →
      ∃ msg, create_bill st now cn cp sa ip raw = (st, BillResponse.forbidden msg) := by
  intro st now cn cp sa ip raw hk hr
  rcases Bool.eq_false_or_eq_true (st.user.has_active_plan now) with ha | ha
  · exact ⟨"You have no billing requests remaining. Please upgrade your plan.",
      by simp [create_bill, ha, hk, hr]⟩
  · exact ⟨"Your billing plan has expired. Please renew to create bills.",
      by simp [create_bill, ha]⟩

/-- Witness for C5: a concrete trial user with zero remaining requests is
rejected with the state unchanged. -/
theorem C5_trial_quota_exhausted_witness :
    ∃ msg,
      create_bill
          { user := mkUser (some trialPlan) (some 5) 0 true,
            products := [], bills := [] } 0 "Cust" none none none []
        = ({ user := mkUser (some trialPlan) (some 5) 0 true,
             products := [], bills := [] }, BillResponse.forbidden msg) :=
  C5_trial_quota_exhausted_rejected _ 0 "Cust" none none none [] rfl (by norm_num [mkUser])

/-- C7: `decrement_billing_request` decrements by exactly one and reports
success when the count is positive, is a no-op reporting failure
otherwise, and never drives a non-negative count below zero. -/
theorem C7_decrement_billing_request_spec (u : User) :
    (0 < u.billing_requests_remaining →
      u.decrement_billing_request
        = ({ u with billing_requests_remaining := u.billing_requests_remaining - 1 }, true))
    ∧ (u.billing_requests_remaining ≤ 0 → u.decrement_billing_request = (u, false))
    ∧ (0 ≤ u.billing_requests_remaining →
        0 ≤ (u.decrement_billing_request).1.billing_requests_remaining) := by
  refine ⟨fun h => ?_, fun h => ?_, fun h => ?_⟩
  · simp [User.decrement_billing_request, h]
  · simp [User.decrement_billing_request, not_lt.mpr h]
  · by_cases h2 : 0 < u.billing_requests_remaining
    · simp only [User.decrement_billing_request, if_pos h2]
      omega
    · simp only [User.decrement_billing_request, if_neg h2]
      exact h

/-- Witness for C7 at concrete users with counts 5 and 0. -/
theorem C7_decrement_billing_request_witness :
    (mkUser none none 5 true).decrement_billing_request
      = ({ mkUser none none 5 true with billing_requests_remaining := 5 - 1 }, true)
    ∧ (mkUser none none 0 true).decrement_billing_request = (mkUser none none 0 true, false)
    ∧ 0 ≤ ((mkUser none none 5 true).decrement_billing_request).1.billing_requests_remaining :=
  ⟨(C7_decrement_billing_request_spec _).1 (by norm_num [mkUser]),
   (C7_decrement_billing_request_spec _).2.1 (by norm_num [mkUser]),
   (C7_decrement_billing_request_spec (mkUser none none 5 true)).2.2 (by norm_num [mkUser])⟩

/-- C6: in the stock loop, a non-custom item with a non-empty name and
positive quantity whose name has exactly one active catalog match reduces
that product's stock to max(0, previous − quantity); custom items and
items with no active match are skipped unchanged; non-negative stocks stay
non-negative; a successful bill creation applies exactly this loop to the
request items; and concretely stock 5 with quantity 3 yields 2 while
quantity 10 yields 0. -/
theorem C6_stock_decrement_floored :
    (∀ (ps : List Product) (it : Item) (i : ℕ),
      it.isCustom = false → it.name ≠ "" → 0 < it.quantity →
      (activeMatches it.name ps).length = 1 →
      (applyStock ps it)[i]? = (ps[i]?).map (fun p =>
        if p.name = it.name ∧ p.is_active = true then
          { p with stock_quantity := max 0 (p.stock_quantity - it.quantity) }
        else p))
    ∧ (∀ (ps : List Product) (it : Item), it.isCustom = true → applyStock ps it = ps)
    ∧ (∀ (ps : List Product) (it : Item),
        activeMatches it.name ps = [] → applyStock ps it = ps)
    ∧ (∀ (ps : List Product) (it : Item),
        (∀ p ∈ ps, 0 ≤ p.stock_quantity) → ∀ p ∈ applyStock ps it, 0 ≤ p.stock_quantity)
    ∧ (∀ (st : SysState) (now : ℤ) (cn : String) (cp sa : Option String)
        (ip : Option Bool) (raw : List RawItem) (bill : Bill) (rem : Option ℤ),
        (create_bill st now cn cp sa ip raw).2 = BillResponse.created bill rem →
        (create_bill st now cn cp sa ip raw).1.products
          = reduceStock (raw.map toItem) st.products)
    ∧ ((applyStock [mkProduct "Pen" 5] (mkItem "Pen" 3)).map Product.stock_quantity = [2])
    ∧ ((applyStock [mkProduct "Pen" 5] (mkItem "Pen" 10)).map Product.stock_quantity = [0]) := by
  refine ⟨?_, ?_, ?_, ?_, ?_, ?_, ?_⟩
  · intro ps it i h1 h2 h3 h4
    rw [applyStock, if_pos ⟨h2, h3, h1⟩, if_pos h4]
    exact List.getElem?_map ..
  · intro ps it h
    rw [applyStock, if_neg]
    simp [h]
  · intro ps it h
    rw [applyStock]
    split_ifs with hc hl
    · rw [h] at hl
      simp at hl
    · rfl
    · rfl
  · intro ps it h p hp
    rw [applyStock] at hp
    split_ifs at hp
    · rcases List.mem_map.mp hp with ⟨q, hq, rfl⟩
      split_ifs
      · exact le_max_left 0 _
      · exact h q hq
    · exact h p hp
    · exact h p hp
  · intro st now cn cp sa ip raw bill rem h
    rw [create_bill] at h ⊢
    split_ifs at h ⊢ <;>
      (try simp at h) <;>
      (cases hv : BillSerializer.validate_items raw) <;>
      first
        | rfl
        | (rw [hv] at h; simp at h)
  · simp [applyStock, activeMatches, mkProduct, mkItem]
    rw [sup_eq_right.mpr (by norm_num : (0:ℚ) ≤ 5 - 3)]
    norm_num
  · simp [applyStock, activeMatches, mkProduct, mkItem]
    norm_num

/-- Witness for C6: the element-level description applied at the concrete
one-product catalog, and the endpoint-level conjunct applied at a concrete
successful creation. -/
theorem C6_stock_decrement_witness :
    (applyStock [mkProduct "Pen" 5] (mkItem "Pen" 3))[0]?
      = (([mkProduct "Pen" 5] : List Product)[0]?).map (fun p =>
          if p.name = (mkItem "Pen" 3).name ∧ p.is_active = true then
            { p with stock_quantity := max 0 (p.stock_quantity - (mkItem "Pen" 3).quantity) }
          else p) :=
  C6_stock_decrement_floored.1 [mkProduct "Pen" 5] (mkItem "Pen" 3) 0 rfl
    (by simp [mkItem]) (by norm_num [mkItem]) (by simp [activeMatches, mkProduct, mkItem])

/-- C8: when the update payload omits items, the bill's items and all four
amount fields are unchanged and only customer name, phone, status and paid
flag are (possibly) overwritten; when it supplies items, all four amount
fields are recomputed from scratch from the new items. -/
theorem C8_update_recompute_or_frame :
    ∀ (b : Bill) (u : User) (d : BillSerializer.UpdateData),
      (d.items = none →
        BillSerializer.update b u d
          = { b with
              customer_name := d.customer_name.getD b.customer_name
              customer_phone := match d.customer_phone with
                | some cp => some cp
                | none => b.customer_phone
              status := d.status.getD b.status
              is_paid := d.is_paid.getD b.is_paid })
      ∧ (∀ its, d.items = some its →
          (BillSerializer.update b u d).items = its
          ∧ (BillSerializer.update b u d).subtotal = BillSerializer.subtotalOf its
          ∧ (BillSerializer.update b u d).cgst_amount
              = round2 (BillSerializer.subtotalOf its * (u.gst_percentage / 2) / 100)
          ∧ (BillSerializer.update b u d).sgst_amount
              = round2 (BillSerializer.subtotalOf its * (u.gst_percentage / 2) / 100)
          ∧ (BillSerializer.update b u d).total
              = round2 (BillSerializer.subtotalOf its
                  + BillSerializer.subtotalOf its * (u.gst_percentage / 2) / 100
                  + BillSerializer.subtotalOf its * (u.gst_percentage / 2) / 100)) := by
  intro b u d
  rcases d with ⟨dcn, dcp, dst, dip, dits⟩
  constructor
  · intro h
    subst h
    cases dcn <;> cases dcp <;> cases dst <;> cases dip <;>
      simp [BillSerializer.update]
  · intro its h
    subst h
    cases dcn <;> cases dcp <;> cases dst <;> cases dip <;>
      exact ⟨rfl, rfl, rfl, rfl, rfl⟩

/-- Witness for C8: a no-items update of a concrete bill changes only the
status field, and an update carrying one item of price 10 and quantity 2
recomputes the amounts. -/
theorem C8_update_recompute_or_frame_witness :
    (BillSerializer.update bill0 (mkUser none none 0 true)
        { customer_name := none, customer_phone := none, status := some "pending",
          is_paid := none, items := none }
      = { bill0 with status := "pending" })
    ∧ (BillSerializer.update bill0 (mkUser none none 0 true)
        { customer_name := none, customer_phone := none, status := none,
          is_paid := none, items := some [mkItem "Ink" 2] }).subtotal
      = BillSerializer.subtotalOf [mkItem "Ink" 2] :=
  ⟨(C8_update_recompute_or_frame bill0 (mkUser none none 0 true)
      { customer_name := none, customer_phone := none, status := some "pending",
        is_paid := none, items := none }).1 rfl,
   ((C8_update_recompute_or_frame bill0 (mkUser none none 0 true)
      { customer_name := none, customer_phone := none, status := none,
        is_paid := none, items := some [mkItem "Ink" 2] }).2 [mkItem "Ink" 2] rfl).2.1⟩

lemma checkItem_eq_none_iff (idx : ℕ) (it : RawItem) :
    BillSerializer.checkItem idx it = none ↔ BillSerializer.itemOk it = true := by
  rcases it with ⟨n, pr, qt, ic⟩
  cases n <;> cases pr <;> cases qt <;>
    simp only [BillSerializer.checkItem, BillSerializer.itemOk] <;>
    try simp
  case some.some.some _ pv qv =>
    cases hp : pyFloat pv <;> cases hq : pyFloat qv <;> simp [hp, hq] <;>
      split_ifs <;>
      simp_all [not_lt, not_le]

lemma firstErr_eq_none_iff (idx : ℕ) (raw : List RawItem) :
    BillSerializer.firstErr idx raw = none
      ↔ ∀ it ∈ raw, BillSerializer.itemOk it = true := by
  induction raw generalizing idx with
  | nil => simp [BillSerializer.firstErr]
  | cons a l ih =>
    simp only [BillSerializer.firstErr]
    cases hc : BillSerializer.checkItem idx a with
    | some e =>
      have ha : ¬BillSerializer.itemOk a = true := by
        intro hok
        rw [← checkItem_eq_none_iff idx a] at hok
        rw [hok] at hc
        cases hc
      simp [ha]
    | none =>
      have ha : BillSerializer.itemOk a = true := (checkItem_eq_none_iff idx a).mp hc
      simp [ha, ih (idx + 1)]

lemma firstErr_first_offender (raw : List RawItem) : ∀ (idx i : ℕ) (iti : RawItem),
    (∀ j it, j < i → raw[j]? = some it → BillSerializer.itemOk it = true) →
    raw[i]? = some iti → BillSerializer.itemOk iti = false →
    BillSerializer.firstErr idx raw = BillSerializer.checkItem (idx + i) iti := by
  induction raw with
  | nil =>
    intro idx i iti hok hi hbad
    simp at hi
  | cons a l ih =>
    intro idx i iti hok hi hbad
    cases i with
    | zero =>
      have hi2 : a = iti := by
        simpa using hi
      rw [← hi2] at hbad
      rw [← hi2]
      have hc : BillSerializer.checkItem idx a ≠ none := by
        intro hn
        rw [checkItem_eq_none_iff idx a, hbad] at hn
        cases hn
      cases hc2 : BillSerializer.checkItem idx a with
      | none => exact absurd hc2 hc
      | some e =>
        simp only [BillSerializer.firstErr, hc2, Nat.add_zero]
    | succ j =>
      have ha : BillSerializer.itemOk a = true :=
        hok 0 a (Nat.succ_pos j) (by simp)
      have hc : BillSerializer.checkItem idx a = none :=
        (checkItem_eq_none_iff idx a).mpr ha
      simp only [BillSerializer.firstErr, hc]
      have hrec := ih (idx + 1) j iti
        (fun k it hk hkk => hok (k + 1) it (by omega) (by simpa using hkk))
        (by simpa using hi) hbad
      rw [hrec]
      congr 1
      omega

/-- C9: item validation rejects exactly the empty list and lists with an
item that is missing a field, has a non-numeric or negative price, or has
a non-numeric or non-positive quantity; the error it reports is the first
offending item's message, which names that item's 1-based index and the
offending field; and on the authorized path a validation error makes
`create_bill` return the 400-class response with the state unchanged, so
no bill is created. -/
theorem C9_item_validation_rejections :
    (BillSerializer.validate_items [] = Except.error "At least one item is required")
    ∧ (∀ raw, BillSerializer.validate_items raw = Except.ok raw ↔
        (raw ≠ [] ∧ ∀ it ∈ raw, BillSerializer.itemOk it = true))
    ∧ (∀ raw i iti,
        (∀ j it, j < i → raw[j]? = some it → BillSerializer.itemOk it = true) →
        raw[i]? = some iti → BillSerializer.itemOk iti = false →
        ∃ e, BillSerializer.checkItem i iti = some e
          ∧ BillSerializer.validate_items raw = Except.error e)
    ∧ (∀ (st : SysState) (now : ℤ) (cn : String) (cp sa : Option String)
        (ip : Option Bool) (raw : List RawItem) (e : String),
        st.user.has_active_plan now = true →
        ¬(st.user.plan_key = some "trial" ∧ st.user.billing_requests_remaining ≤ 0) →
        BillSerializer.validate_items raw = Except.error e →
        create_bill st now cn cp sa ip raw = (st, BillResponse.badRequest e)) := by
  refine ⟨rfl, ?_, ?_, ?_⟩
  · intro raw
    cases raw with
    | nil => simp [BillSerializer.validate_items]
    | cons a l =>
      simp only [BillSerializer.validate_items, List.isEmpty_cons, if_neg Bool.false_ne_true]
      cases hf : BillSerializer.firstErr 0 (a :: l) with
      | some e =>
        constructor
        · intro h
          simp at h
        · rintro ⟨hne, hall⟩
          rw [← firstErr_eq_none_iff 0 (a :: l)] at hall
          rw [hall] at hf
          cases hf
      | none =>
        have hall : ∀ it ∈ a :: l, BillSerializer.itemOk it = true :=
          (firstErr_eq_none_iff 0 (a :: l)).mp hf
        constructor
        · intro _
          exact ⟨by simp, hall⟩
        · intro _
          rfl
  · intro raw i iti hok hi hbad
    have hne : raw ≠ [] := by
      intro h
      subst h
      simp at hi
    have hfe : BillSerializer.firstErr 0 raw = BillSerializer.checkItem i iti := by
      have := firstErr_first_offender raw 0 i iti hok hi hbad
      simpa using this
    have hc : BillSerializer.checkItem i iti ≠ none := by
      intro hn
      rw [checkItem_eq_none_iff i iti, hbad] at hn
      cases hn
    cases hc2 : BillSerializer.checkItem i iti with
    | none => exact absurd hc2 hc
    | some e =>
      refine ⟨e, rfl, ?_⟩
      rw [BillSerializer.validate_items, if_neg (by simp [hne]), hfe, hc2]
  · intro st now cn cp sa ip raw e ha hcond hval
    rw [create_bill, if_neg (by simp [ha]), if_neg hcond, hval]

/-- Witness for C9: a list whose second item has a negative price is
rejected with the second item's message, and a concrete authorized user
submitting an empty item list receives the 400-class empty-list error with
an unchanged state. -/
theorem C9_item_validation_witness :
    (∃ e, BillSerializer.checkItem 1
        { name := some "B", price := some (PyVal.pnum (-2)),
          quantity := some (PyVal.pnum 1), isCustom := false } = some e
      ∧ BillSerializer.validate_items
          [mkRawItem "A" 5 1,
           { name := some "B", price := some (PyVal.pnum (-2)),
             quantity := some (PyVal.pnum 1), isCustom := false }]
        = Except.error e)
    ∧ create_bill
        { user := mkUser (some premiumPlan) (some 10) 0 true,
          products := [], bills := [] } 0 "C" none none none []
      = ({ user := mkUser (some premiumPlan) (some 10) 0 true,
           products := [], bills := [] },
         BillResponse.badRequest "At least one item is required") :=
  ⟨C9_item_validation_rejections.2.2.1
      [mkRawItem "A" 5 1,
       { name := some "B", price := some (PyVal.pnum (-2)),
         quantity := some (PyVal.pnum 1), isCustom := false }] 1 _
      (by
        intro j it hj hjt
        interval_cases j
        simp [mkRawItem] at hjt
        subst hjt
        simp [BillSerializer.itemOk, mkRawItem, pyFloat])
      rfl
      (by simp [BillSerializer.itemOk, pyFloat]),
   C9_item_validation_rejections.2.2.2 _ 0 "C" none none none [] _
      rfl
      (by simp [mkUser, premiumPlan, User.plan_key])
      rfl⟩

/-- C10: both permission checkers are exactly "has a plan and the plan has
the relevant flag"; every dashboard endpoint (overview, monthly sales,
daily sales, product insights, revenue breakdown) returns the data-free
not-entitled response whenever the insights-dashboard check fails, and
every report endpoint (sales report, inventory report) does so whenever
the sales-reports check fails, regardless of the stored bills and
products; and an entitled user with no bills (and no products) receives
zeroed or empty aggregates, not an error. -/
theorem C10_feature_flag_gating :
    (∀ u : User, check_dashboard_permission u = true ↔
      ∃ p, u.current_plan = some p ∧ p.has_insights_dashboard = true)
    ∧ (∀ u : User, check_reports_permission u = true ↔
      ∃ p, u.current_plan = some p ∧ p.has_sales_reports = true)
    ∧ (∀ (u : User) (bills : List Bill) (products : List Product) (today month_start : ℤ),
        check_dashboard_permission u = false →
        dashboard_overview u bills products today month_start = DashResult.notEntitled)
    ∧ (∀ (u : User) (bills : List Bill) (today : ℤ) (tm : ℤ → ℤ),
        check_dashboard_permission u = false →
        monthly_sales u bills today tm = DashResult.notEntitled)
    ∧ (∀ (u : User) (bills : List Bill) (today : ℤ),
        check_dashboard_permission u = false →
        daily_sales u bills today = DashResult.notEntitled)
    ∧ (∀ (u : User) (bills : List Bill) (products : List Product) (today : ℤ),
        check_dashboard_permission u = false →
        product_insights u bills products today = DashResult.notEntitled)
    ∧ (∀ (u : User) (bills : List Bill) (today month_start lms lme : ℤ),
        check_dashboard_permission u = false →
        revenue_breakdown u bills today month_start lms lme = DashResult.notEntitled)
    ∧ (∀ (u : User) (bills : List Bill) (sd ed : ℤ),
        check_reports_permission u = false →
        sales_report u bills sd ed = DashResult.notEntitled)
    ∧ (∀ (u : User) (products : List Product),
        check_reports_permission u = false →
        inventory_report u products = DashResult.notEntitled)
    ∧ (∀ (u : User) (today month_start : ℤ),
        check_dashboard_permission u = true →
        dashboard_overview u [] [] today month_start
          = DashResult.ok
            { total_revenue := 0, total_bills := 0, month_revenue := 0,
              month_bills := 0, week_revenue := 0, avg_bill_value := 0,
              total_products := 0, low_stock_count := 0, out_of_stock_count := 0,
              top_product := none })
    ∧ (∀ (u : User) (today : ℤ) (tm : ℤ → ℤ),
        check_dashboard_permission u = true →
        monthly_sales u [] today tm = DashResult.ok [])
    ∧ (∀ (u : User) (today : ℤ),
        check_dashboard_permission u = true →
        daily_sales u [] today = DashResult.ok [])
    ∧ (∀ (u : User) (today : ℤ),
        check_dashboard_permission u = true →
        product_insights u [] [] today
          = DashResult.ok
            { low_stock_products := [], out_of_stock_products := [],
              top_selling_products := [] })
    ∧ (∀ (u : User) (today month_start lms lme : ℤ),
        check_dashboard_permission u = true →
        revenue_breakdown u [] today month_start lms lme
          = DashResult.ok
            { today_revenue := 0, yesterday_revenue := 0, week_revenue := 0,
              month_revenue := 0, last_month_revenue := 0, month_growth := 0 })
    ∧ (∀ (u : User) (sd ed : ℤ),
        check_reports_permission u = true →
        sales_report u [] sd ed
          = DashResult.ok
            { total_bills := 0, completed_bills := 0, pending_bills := 0,
              total_revenue := 0, total_subtotal := 0, total_cgst := 0,
              total_sgst := 0, avg_bill_value := 0, daily_breakdown := [],
              top_customers := [], top_products := [] }) := by
  refine ⟨?_, ?_, ?_, ?_, ?_, ?_, ?_, ?_, ?_, ?_, ?_, ?_, ?_, ?_, ?_⟩
  · intro u
    cases hc : u.current_plan <;> simp [check_dashboard_permission, hc]
  · intro u
    cases hc : u.current_plan <;> simp [check_reports_permission, hc]
  · intro u bills products today month_start h
    simp [dashboard_overview, h]
  · intro u bills today tm h
    simp [monthly_sales, h]
  · intro u bills today h
    simp [daily_sales, h]
  · intro u bills products today h
    simp [product_insights, h]
  · intro u bills today month_start lms lme h
    simp [revenue_breakdown, h]
  · intro u bills sd ed h
    simp [sales_report, h]
  · intro u products h
    simp [inventory_report, h]
  · intro u today month_start h
    simp [dashboard_overview, h, completedOf, sumTotal, avgTotal, productSales, maxBySnd]
  · intro u today tm h
    simp [monthly_sales, h, groupTotals, sumTotal]
  · intro u today h
    simp [daily_sales, h, groupTotals, sumTotal]
  · intro u today h
    simp [product_insights, h, productSalesRev]
  · intro u today month_start lms lme h
    simp [revenue_breakdown, h, completedOf, sumTotal]
  · intro u sd ed h
    simp [sales_report, h, completedOf, sumTotal, avgTotal, groupTotals,
      customerRevenue, productSalesRev]

/-- Witness for C10: a plan-less user is not entitled to the overview, and
a user on a plan with both flags gets the zeroed overview and the zeroed
sales report when no bills exist. -/
theorem C10_feature_flag_gating_witness :
    dashboard_overview (mkUser none none 0 true) [] [] 0 0 = DashResult.notEntitled
    ∧ dashboard_overview (mkUser (some reportingPlan) (some 10) 0 true) [] [] 0 0
      = DashResult.ok
        { total_revenue := 0, total_bills := 0, month_revenue := 0,
          month_bills := 0, week_revenue := 0, avg_bill_value := 0,
          total_products := 0, low_stock_count := 0, out_of_stock_count := 0,
          top_product := none }
    ∧ sales_report (mkUser (some reportingPlan) (some 10) 0 true) [] 0 30
      = DashResult.ok
        { total_bills := 0, completed_bills := 0, pending_bills := 0,
          total_revenue := 0, total_subtotal := 0, total_cgst := 0,
          total_sgst := 0, avg_bill_value := 0, daily_breakdown := [],
          top_customers := [], top_products := [] } :=
  ⟨C10_feature_flag_gating.2.2.1 (mkUser none none 0 true) [] [] 0 0 rfl,
   C10_feature_flag_gating.2.2.2.2.2.2.2.2.2.1 (mkUser (some reportingPlan) (some 10) 0 true)
     0 0 rfl,
   C10_feature_flag_gating.2.2.2.2.2.2.2.2.2.2.2.2.2.2 (mkUser (some reportingPlan) (some 10) 0 true)
     0 30 rfl⟩
